import Mathlib

/-!
Shallow embedding of the `ups_integration` carrier-tracking app
(`ups_integration/api.py`, `ups_integration/fedex_integration.py`,
`ups_integration/priority_integration.py`).

Conventions of the embedding:
* Python `None` is `Option.none`; a field that may hold `None` is an `Option`.
* A function that can raise an uncaught exception returns `Option _`,
  with `none` standing for the raised exception (nothing is saved then).
* `frappe.utils.now()` / `today()` are passed in as explicit string
  parameters (`nowS`, `todayS`); dates used in request date windows are
  modelled as integer day numbers rendered with `toString`.
* The update functions return the persisted (saved) state of the
  Delivery Note document; paths that return without calling `save`
  return the document unchanged.
-/

set_option autoImplicit false

namespace UpsIntegration

/-- Decimal digit value of a character, `none` for a non-digit. -/
def digitVal? (c : Char) : Option Nat :=
  if 48 ≤ c.toNat ∧ c.toNat ≤ 57 then some (c.toNat - 48) else none

/-- Accumulating decimal parse of a digit list, `none` on any
non-digit. -/
def natOfDigits : List Char → Nat → Option Nat
  | [], acc => some acc
  | c :: rest, acc =>
    match digitVal? c with
    | none => none
    | some d => natOfDigits rest (acc * 10 + d)

/-- Parse an optionally-negated decimal string; `none` when the string
is empty or contains a non-digit. -/
def parseIntStr (s : String) : Option Int :=
  match s.data with
  | [] => none
  | '-' :: rest =>
    match rest with
    | [] => none
    | cs => (natOfDigits cs 0).map (fun n => -(n : Int))
  | cs => (natOfDigits cs 0).map (fun n => (n : Int))

/-- `frappe.utils.cint` applied to a raw code string: convert to an
integer, defaulting to `0` when the string is not numeric. -/
def cint (s : String) : Int :=
  (parseIntStr s).getD 0

/-- Python string interpolation of a possibly-`None` value:
`f"{x}"` renders `None` as `"None"`. -/
def pyStr : Option String → String
  | some s => s
  | none => "None"

/-- Python truthiness of an optional string: `None` and `""` are falsy. -/
def pyTruthyStr : Option String → Bool
  | some s => s ≠ ""
  | none => false

/-- Python `a or b` where `a` is a possibly-`None` string: falls back to
`b` when `a` is `None` or the empty string. -/
def pyOrS : Option String → String → String
  | some s, b => if s = "" then b else s
  | none, b => b

/-! ## Parcel Service Settings (registry rows and config) -/

/-- One row of the `status_code_description` child table of
Parcel Service Settings (UPS codes).

Modelled from the spec: the child-table doctype declaring the field types
is not under `src/`; `status_code` is modelled as an integer field, which
is what makes `status.status_code == cint(parent_ups_tracking_code)` and
`code_status_map[cint(...)]` in `api.py` line up with the spec scenario
"currentStatus.code = \x225\x22 mapped to \x22In Transit\x22". -/
structure UPSStatusCodeRow where
  status_code : Int
  ups_description : String
  jammy_description : String
deriving DecidableEq

/-- One row of the FedEx `tracking_code_description` child table. -/
structure FedExStatusCodeRow where
  fedex_status_code : String
  fedex_code_description : String
  jammy_description : String
deriving DecidableEq

/-- One row of the FedEx `error_code_description` child table. -/
structure FedExErrorCodeRow where
  fedex_error_code : String
  fedex_code_description : String
  jammy_description : String
deriving DecidableEq

/-- One row of the Priority `response_code_details` child table. -/
structure PriorityResponseCodeRow where
  response_code : String
  priority_status_description : String
  jammy_description : String
deriving DecidableEq

/-- One row of the Priority `error_code_details` child table.

Modelled from the spec: the child-table doctype declaring the field type
of `response_code` is not under `src/`; it is modelled as a string field,
which is what makes `error_map.get(f"{error.get('code')}")` in
`priority_integration.py` line up with the spec scenario "transport error
with code 500 and a registered error-code description mapping to
\x22DN Not Found\x22". -/
structure PriorityErrorCodeRow where
  response_code : String
  priority_error_code_description : String
  jammy_description : String
deriving DecidableEq

/-- One row of the FedEx `account_number_details` child table. -/
structure AccountNumberRow where
  source_warehouse : String
  account_number : String
deriving DecidableEq

/-- The relevant fields of the single `Parcel Service Settings` document. -/
structure ParcelServiceSettings where
  ups_server_url : String
  track_by_reference_number_url : String
  track_by_inquiry_number_url : String
  locale : String
  ref_number_type : String
  check_no_of_days_api : Int
  ups_app_name : String
  status_code_description : List UPSStatusCodeRow
  fedex_server_url : String
  fedex_track_by_reference_number_url : String
  fedex_track_by_tracking_id : String
  reference_type : Option String
  check_for_no_of_days : Int
  include_detailed_scans_in_response : Option String
  include_detailed_scan : Option String
  x_locale : Option String
  account_number_details : List AccountNumberRow
  tracking_code_description : List FedExStatusCodeRow
  error_code_description : List FedExErrorCodeRow
  priority_base_url : String
  priority_tracking_url : String
  shipment_identifier_type : String
  priority_api_key : String
  response_code_details : List PriorityResponseCodeRow
  error_code_details : List PriorityErrorCodeRow
deriving DecidableEq

/-! ## Delivery Note -/

/-- One row of the `custom_tracking_details` child table of a
Delivery Note (appended on the UPS by-reference path). -/
structure TrackingDetailRow where
  tracking_id : String
  status_code : String
  status_description : String
deriving DecidableEq

/-- The fields of a Delivery Note document read or written by the
integration. `posting_date` is an integer day number. -/
structure DeliveryNote where
  name : String
  posting_date : Int
  set_warehouse : String
  tracking_number : Option String
  custom_tracking : Option String
  custom_tracking_code : Option String
  custom_last_api_call : Option String
  custom_last_date_for_processing_status : Option String
  custom_incident_first_date : Option String
  custom_tracking_details : List TrackingDetailRow
deriving DecidableEq

/-! ## UPS (`api.py`) -/

/-- `result['trackResponse']['shipment'][i]['package'][j]['currentStatus']`. -/
structure UPSCurrentStatus where
  code : String
deriving DecidableEq

/-- One entry of a package's `activity` array; only
`activity[i]['status']['statusCode']` is read. -/
structure UPSActivity where
  statusCode : String
deriving DecidableEq

/-- One entry of the `package` array of a UPS shipment. -/
structure UPSPackage where
  trackingNumber : String
  currentStatus : UPSCurrentStatus
  activity : List UPSActivity
deriving DecidableEq

/-- One entry of `result['trackResponse']['shipment']`.  `has_warnings`
models the `"warnings" in shipment.keys()` membership test;
`warning_message` is `warnings[0]['message']` (displayed only). -/
structure UPSShipment where
  has_warnings : Bool
  warning_message : String
  package : List UPSPackage
deriving DecidableEq

/-- The parsed body of a 2xx UPS tracking response,
`result['trackResponse']`.  A body missing this shape is modelled as
`none` (subscripting it raises). -/
structure UPSTrackResponse where
  shipment : List UPSShipment
deriving DecidableEq

/-- The `code_status_map` dict of `set_data_in_delivery_note`:
built left-to-right with `update`, so a later duplicate key overwrites
an earlier one; absent key yields `none` (`dict[k]` would raise). -/
def code_status_map (rows : List UPSStatusCodeRow) (k : Int) : Option String :=
  rows.foldl (fun acc r => if r.status_code = k then some r.jammy_description else acc) none

/-- The `parent_jammy_status_code` loop of the UPS by-reference branch:
starts from `''` and overwrites on every matching row. -/
def ups_matched_status (rows : List UPSStatusCodeRow) (code : Int) : String :=
  rows.foldl (fun acc r => if r.status_code = code then r.jammy_description else acc) ""

/-- The child rows appended by the `for package in packages` loop of the
UPS by-reference branch.  The `code_status_map[cint(...)]` subscript
raises `KeyError` for an unmapped code, modelled as `none`. -/
def ups_child_rows (rows : List UPSStatusCodeRow) (packages : List UPSPackage) :
    Option (List TrackingDetailRow) :=
  packages.mapM (fun p =>
    (code_status_map rows (cint p.currentStatus.code)).map (fun desc =>
      { tracking_id := p.trackingNumber
        status_code := p.currentStatus.code
        status_description := desc }))

/-- `set_data_in_delivery_note(delivery_note, result, error, tracking_method)`
from `api.py`.  `error` is the raw error string from `make_api_request`
(`if error:` is string truthiness); `result` is the parsed 2xx body, with
`none` modelling a body on which `result['trackResponse']['shipment'][0]`
raises.  Returns the saved Delivery Note, or `none` when an uncaught
exception is raised (nothing saved). -/
def set_data_in_delivery_note (settings : ParcelServiceSettings)
    (dn_doc : DeliveryNote) (result : Option UPSTrackResponse)
    (error : Option String) (tracking_method : String) (nowS : String) :
    Option DeliveryNote :=
  if pyTruthyStr error then
    some { dn_doc with custom_tracking := some "ERPNext Exception" }
  else
    match result with
    | none => none
    | some res =>
      match res.shipment with
      | [] => none
      | sh0 :: _ =>
        if sh0.has_warnings then
          some { dn_doc with custom_tracking := some "DN Not Found In UPS" }
        else
          match sh0.package with
          | [] => some dn_doc
          | p0 :: _ =>
            if tracking_method = "By Reference" then
              match ups_child_rows settings.status_code_description sh0.package with
              | none => none
              | some new_rows =>
                some { dn_doc with
                  tracking_number := some p0.trackingNumber
                  custom_tracking_code := some p0.currentStatus.code
                  custom_tracking := some (ups_matched_status
                    settings.status_code_description (cint p0.currentStatus.code))
                  custom_last_api_call := some nowS
                  custom_tracking_details :=
                    dn_doc.custom_tracking_details ++ new_rows }
            else if tracking_method = "By Tracking ID" then
              match p0.activity with
              | [] => some dn_doc
              | a0 :: _ =>
                match code_status_map settings.status_code_description
                    (cint a0.statusCode) with
                | none => none
                | some desc =>
                  some { dn_doc with
                    custom_tracking_code := some a0.statusCode
                    custom_tracking := some desc
                    custom_last_api_call := some nowS }
            else some dn_doc

/-- `UPSClient.get_auth_token`: on any failure of the OAuth call the
exception is caught, logged, and the function falls off the end,
returning `None`.  `issued` is the token from a successful OAuth
response (`none` = issuance failed). -/
def ups_get_auth_token (issued : Option String) : Option String :=
  issued

/-- `UPSClient.__initialize_auth`: use the cached token if truthy, else
call `get_auth_token` (which yields `None` on failure). -/
def ups_access_token (cached issued : Option String) : Option String :=
  if pyTruthyStr cached then cached else ups_get_auth_token issued

/-- The `Authorization` header built by `UPSClient.__initialize_auth`:
`f"Bearer {self.access_token}"` renders a `None` token as
`"Bearer None"`. -/
def ups_auth_header (cached issued : Option String) : String :=
  "Bearer " ++ pyStr (ups_access_token cached issued)

/-- The outbound UPS tracking request built by `get_ups_tracking_data`. -/
structure UPSRequest where
  url : String
  headers_authorization : String
  headers_transactionSrc : String
  params : List (String × String)
  tracking_method : String
deriving DecidableEq

/-- The request-building half of `get_ups_tracking_data(delivery_note)`
from `api.py`.  The request is built and issued unconditionally (there is
no abort path); `todayN` is today as an integer day number. -/
def get_ups_tracking_data (settings : ParcelServiceSettings)
    (cached issued : Option String) (delivery_note_doc : DeliveryNote)
    (todayN : Int) : UPSRequest :=
  let base_params := [("locale", settings.locale)]
  if delivery_note_doc.tracking_number = none then
    { url := settings.ups_server_url ++ settings.track_by_reference_number_url
        ++ delivery_note_doc.name
      headers_authorization := ups_auth_header cached issued
      headers_transactionSrc := settings.ups_app_name
      params := base_params ++
        [("fromPickUpDate", toString (todayN - settings.check_no_of_days_api)),
         ("toPickUpDate", toString todayN),
         ("refNumType", settings.ref_number_type)]
      tracking_method := "By Reference" }
  else
    { url := settings.ups_server_url ++ settings.track_by_inquiry_number_url
        ++ pyStr delivery_note_doc.tracking_number
      headers_authorization := ups_auth_header cached issued
      headers_transactionSrc := settings.ups_app_name
      params := base_params ++
        [("returnSignature", "false"), ("returnMilestones", "false"),
         ("returnPOD", "false")]
      tracking_method := "By Tracking ID" }

/-! ## FedEx (`fedex_integration.py`) -/

/-- The raw error body handed to
`update_delivery_note_with_fedex_details`: the decoded non-2xx response
content.  `json.loads` is modelled as succeeding exactly on
`parseableJson` bodies and raising on `unparseableJson` bodies
(parseability of a concrete string is an external-library property). -/
inductive FedExErrorBody where
  | parseableJson (content : String)
  | unparseableJson (content : String)
deriving DecidableEq

/-- Python truthiness of the FedEx `error` value (`if error:`):
an empty string is falsy. -/
def fedexErrorTruthy : Option FedExErrorBody → Bool
  | none => false
  | some (.parseableJson c) => c ≠ ""
  | some (.unparseableJson c) => c ≠ ""

/-- `trackResults[i]['error']`; only `code` is read. -/
structure FedExErrorDetail where
  code : String
deriving DecidableEq

/-- `trackResults[i]['latestStatusDetail']`. -/
structure FedExLatestStatusDetail where
  code : String
  description : String
deriving DecidableEq

/-- One entry of `completeTrackResults[i]['trackResults']`.
`latestStatusDetail = none` models the key being absent
(`'latestStatusDetail' not in ... .keys()`); `statusCode` and
`errorDetail` are read with `.get`, so absence yields `None`. -/
structure FedExTrackResult where
  latestStatusDetail : Option FedExLatestStatusDetail
  statusCode : Option String
  errorDetail : Option FedExErrorDetail
deriving DecidableEq

/-- One entry of `response['output']['completeTrackResults']`. -/
structure FedExCompleteTrackResult where
  trackingNumber : Option String
  trackResults : List FedExTrackResult
deriving DecidableEq

/-- `response['output']`.  A missing or empty `completeTrackResults`
list is falsy in the `and` chain. -/
structure FedExOutput where
  completeTrackResults : List FedExCompleteTrackResult
deriving DecidableEq

/-- The parsed 2xx FedEx body; `output = none` models a missing or
falsy `output` key. -/
structure FedExResponse where
  output : Option FedExOutput
deriving DecidableEq

/-- The `success_map` of `create_map_with_description`
(`fedex_integration.py`): dict built with `update`, later duplicate
keys overwrite earlier ones. -/
def fedex_success_map (rows : List FedExStatusCodeRow) (k : String) : Option String :=
  rows.foldl (fun acc r => if r.fedex_status_code = k then some r.jammy_description else acc)
    none

/-- The `error_map` of `create_map_with_description`
(`fedex_integration.py`). -/
def fedex_error_map (rows : List FedExErrorCodeRow) (k : String) : Option String :=
  rows.foldl (fun acc r => if r.fedex_error_code = k then some r.jammy_description else acc)
    none

/-- The `custom_tracking` value computed on the FedEx success branches:
`success_map.get(trackResults[0].get('statusCode')) or
latestStatusDetail.get('description')` (Python `or`). -/
def fedex_status_string (settings : ParcelServiceSettings)
    (tr0 : FedExTrackResult) (lsd : FedExLatestStatusDetail) : String :=
  pyOrS (match tr0.statusCode with
         | none => none
         | some sc => fedex_success_map settings.tracking_code_description sc)
    lsd.description

/-- The Processing-date rule of the FedEx success branches:
`if custom_tracking == "Processing" and custom_last_date_for_processing_status == None:
set today; elif custom_tracking != "Processing": set None`. -/
def processing_rule (st : String) (last : Option String) (todayS : String) :
    Option String :=
  if st = "Processing" ∧ last = none then some todayS
  else if st ≠ "Processing" then none
  else last

/-- `update_delivery_note_with_fedex_details(dn, response, error, api_type)`
from `fedex_integration.py`.  Returns the saved Delivery Note, or `none`
when an uncaught exception is raised (in particular the bare
`json.loads(error)` on an unparseable error body, and the
`.get('trackResults')[0]` / `.get('error').get('code')` subscripts on
missing data). -/
def update_delivery_note_with_fedex_details (settings : ParcelServiceSettings)
    (document : DeliveryNote) (response : Option FedExResponse)
    (error : Option FedExErrorBody) (api_type : String)
    (nowS todayS : String) : Option DeliveryNote :=
  if fedexErrorTruthy error then
    match error with
    | some (.unparseableJson _) => none
    | _ => some { document with custom_tracking := some "Exception" }
  else
    match response with
    | none => some document
    | some resp =>
      match resp.output with
      | none => some document
      | some out =>
        match out.completeTrackResults with
        | [] => some document
        | track_results :: _ =>
          match track_results.trackResults with
          | [] => none
          | tr0 :: _ =>
            match tr0.latestStatusDetail with
            | none =>
              match tr0.errorDetail with
              | none => none
              | some err =>
                some { document with
                  custom_tracking_code := some err.code
                  custom_tracking :=
                    fedex_error_map settings.error_code_description err.code }
            | some lsd =>
              if api_type = "By Reference" then
                some { document with
                  custom_last_api_call := some nowS
                  tracking_number := track_results.trackingNumber
                  custom_tracking_code := some lsd.code
                  custom_tracking := some (fedex_status_string settings tr0 lsd)
                  custom_last_date_for_processing_status :=
                    processing_rule (fedex_status_string settings tr0 lsd)
                      document.custom_last_date_for_processing_status todayS }
              else if api_type = "By Tracking ID" then
                some { document with
                  custom_last_api_call := some nowS
                  custom_tracking_code := some lsd.code
                  custom_tracking := some (fedex_status_string settings tr0 lsd)
                  custom_last_date_for_processing_status :=
                    processing_rule (fedex_status_string settings tr0 lsd)
                      document.custom_last_date_for_processing_status todayS }
              else some document

/-- `FedExIntegration.get_auth_token`: on any failure the exception is
caught, logged, and the function returns `None`. -/
def fedex_get_auth_token (issued : Option String) : Option String :=
  issued

/-- The `Authorization` header built by
`FedExIntegration.__initialize_auth`: a `None` token renders as
`"Bearer None"`. -/
def fedex_auth_header (cached issued : Option String) : String :=
  "Bearer " ++ pyStr (if pyTruthyStr cached then cached else fedex_get_auth_token issued)

/-- The outbound FedEx tracking request built by
`fetch_fedex_tracking_details`.  By-reference payload fields are `none`
on the by-tracking-id path and vice versa. -/
structure FedExRequest where
  url : String
  headers_authorization : String
  api_type : String
  payload_reference_type : Option String
  payload_reference_value : Option String
  payload_account_number : Option String
  payload_ship_date_begin : Option Int
  payload_ship_date_end : Option Int
  payload_tracking_number : Option String
deriving DecidableEq

/-- The request-building half of `fetch_fedex_tracking_details(dn)` from
`fedex_integration.py`.  The account number is the first
`account_number_details` row matching the document's source warehouse
(the loop breaks on the first match). -/
def fetch_fedex_tracking_details (settings : ParcelServiceSettings)
    (cached issued : Option String) (doc : DeliveryNote) : FedExRequest :=
  let accountNumber :=
    (settings.account_number_details.find?
      (fun a => a.source_warehouse = doc.set_warehouse)).map
      (fun a => a.account_number)
  if doc.tracking_number = none then
    { url := settings.fedex_server_url ++ settings.fedex_track_by_reference_number_url
      headers_authorization := fedex_auth_header cached issued
      api_type := "By Reference"
      payload_reference_type := some (pyOrS settings.reference_type "SHIPPER_REFERENCE")
      payload_reference_value := some doc.name
      payload_account_number := accountNumber
      payload_ship_date_begin := some (doc.posting_date - 2)
      payload_ship_date_end := some (doc.posting_date + settings.check_for_no_of_days)
      payload_tracking_number := none }
  else
    { url := settings.fedex_server_url ++ settings.fedex_track_by_tracking_id
      headers_authorization := fedex_auth_header cached issued
      api_type := "By Tracking ID"
      payload_reference_type := none
      payload_reference_value := none
      payload_account_number := none
      payload_ship_date_begin := none
      payload_ship_date_end := none
      payload_tracking_number := doc.tracking_number }

/-! ## Priority (`priority_integration.py`) -/

/-- The error value produced by the Priority `make_api_request`: a dict
`{'content': ..., 'code': status_code}` for a non-2xx response, or the
raw traceback string when the request itself raised. -/
inductive PriorityError where
  | dictErr (content : Option String) (code : Int)
  | strErr (traceback : String)
deriving DecidableEq

/-- Python truthiness of the Priority `error` value: a dict with a
`code` key is non-empty hence truthy; a traceback string is truthy
unless empty. -/
def priorityErrorTruthy : Option PriorityError → Bool
  | none => false
  | some (.dictErr _ _) => true
  | some (.strErr s) => s ≠ ""

/-- One entry of `response['shipments']`; `id` and `status` are read
with `.get`. -/
structure PriorityShipment where
  id : Option String
  status : Option String
deriving DecidableEq

/-- The parsed 2xx Priority body; only the `shipments` list is read
(missing key and empty list are both falsy under
`response.get("shipments")`). -/
structure PriorityResponse where
  shipments : List PriorityShipment
deriving DecidableEq

/-- The `success_map` of `create_map_with_description`
(`priority_integration.py`), keyed by the Priority status description. -/
def priority_success_map (rows : List PriorityResponseCodeRow) (k : String) :
    Option String :=
  rows.foldl
    (fun acc r => if r.priority_status_description = k then some r.jammy_description else acc)
    none

/-- The `error_map` of `create_map_with_description`
(`priority_integration.py`), keyed by the HTTP response code rendered as
a string; the value keeps the whole row (the code reads its
`jammy_description`). -/
def priority_error_map (rows : List PriorityErrorCodeRow) (k : String) :
    Option PriorityErrorCodeRow :=
  rows.foldl (fun acc r => if r.response_code = k then some r else acc) none

/-- `update_delivery_note_with_priority_details(dn, response, error)`
from `priority_integration.py`.  On a structured (dict) error the code
looks up `error_map.get(f"{code}")` and then calls `.get` on the result,
which raises `AttributeError` when the code is unregistered (modelled as
`none`). -/
def update_delivery_note_with_priority_details (settings : ParcelServiceSettings)
    (document : DeliveryNote) (response : Option PriorityResponse)
    (error : Option PriorityError) (nowS todayS : String) : Option DeliveryNote :=
  if priorityErrorTruthy error then
    match error with
    | some (.dictErr _ code) =>
      if code = 401 then
        match priority_error_map settings.error_code_details (toString code) with
        | none => none
        | some row => some { document with custom_tracking := some row.jammy_description }
      else
        match priority_error_map settings.error_code_details (toString code) with
        | none => none
        | some row =>
          some { document with
            custom_tracking := some row.jammy_description
            custom_incident_first_date :=
              if code = 500 ∧ document.custom_incident_first_date = none
              then some todayS
              else document.custom_incident_first_date }
    | _ => some { document with custom_tracking := some "Exception" }
  else
    match response with
    | none => some document
    | some resp =>
      match resp.shipments with
      | [] => some document
      | sh :: _ =>
        some { document with
          tracking_number := sh.id
          custom_tracking_code := some "200"
          custom_tracking :=
            (match sh.status with
             | none => none
             | some st => priority_success_map settings.response_code_details st)
          custom_last_api_call := some nowS }

/-- The outbound Priority tracking request built by
`fetch_priority_tracking_details(dn)`: the payload always identifies the
shipment by `identifierValue = dn` (the Delivery Note name); the
Delivery Note document itself is never read when building it. -/
structure PriorityRequest where
  url : String
  headers_x_api_key : String
  identifierType : String
  identifierValue : String
deriving DecidableEq

/-- `PriorityIntegration.get_auth_token`: returns the configured API key
(cached); the `X-API-KEY` header is `f"{self.access_token}"`. -/
def priority_access_token (settings : ParcelServiceSettings)
    (cached : Option String) : Option String :=
  if pyTruthyStr cached then cached else some settings.priority_api_key

/-- The request-building half of `fetch_priority_tracking_details(dn)`
from `priority_integration.py`.  Its only shipment input is the Delivery
Note name `dn`; it has no by-tracking-id mode. -/
def fetch_priority_tracking_details (settings : ParcelServiceSettings)
    (cached : Option String) (dn : String) : PriorityRequest :=
  { url := settings.priority_base_url ++ settings.priority_tracking_url
    headers_x_api_key := pyStr (priority_access_token settings cached)
    identifierType := settings.shipment_identifier_type
    identifierValue := dn }

/-! ## Static seed tables -/

/-- Rows 1-40 of the `code_details` seed list of
`fillup_status_code_data` (`api.py`), split for elaboration speed. -/
def ups_code_details_1 : List UPSStatusCodeRow := [
  ⟨0, "Status Not Available", "Not Found"⟩,
  ⟨3, "Shipment Ready for UPS", "Processing"⟩,
  ⟨5, "On the Way", "In Transit"⟩,
  ⟨6, "Out for Delivery", "In Transit"⟩,
  ⟨7, "Shipment Information Voided", "Cancelled"⟩,
  ⟨10, "On the Way", "In Transit"⟩,
  ⟨11, "Delivered", "Delivered"⟩,
  ⟨12, "Clearance in Progress", "In Transit"⟩,
  ⟨13, "Exception", "Exception"⟩,
  ⟨14, "Clearance Completed", "In Transit"⟩,
  ⟨16, "In Warehouse", "In Transit"⟩,
  ⟨17, "Held for Customer Pickup", "In Transit"⟩,
  ⟨18, "Delivery Change Requested: Hold for Pickup", "In Transit"⟩,
  ⟨19, "Held for Future Delivery", "In Transit"⟩,
  ⟨20, "Held for Future Delivery Requested", "In Transit"⟩,
  ⟨21, "Out for Delivery", "In Transit"⟩,
  ⟨22, "First Attempt Made", "In Transit"⟩,
  ⟨23, "Second Delivery Attempted", "In Transit"⟩,
  ⟨24, "Final Attempt Made", "In Transit"⟩,
  ⟨25, "On the Way", "In Transit"⟩,
  ⟨26, "Delivered by Local Post Office", "In Transit"⟩,
  ⟨27, "Delivery Address Change Requested", "In Transit"⟩,
  ⟨28, "Delivery Address Changed", "In Transit"⟩,
  ⟨29, "Exception: Action Required", "Exception"⟩,
  ⟨30, "Local Post Office Exception", "Exception"⟩,
  ⟨32, "Adverse Weather May Cause Delay", "In Transit"⟩,
  ⟨33, "Return to Sender Requested", "Exception"⟩,
  ⟨34, "Returned to Sender", "Exception"⟩,
  ⟨35, "Returning to Sender", "Exception"⟩,
  ⟨36, "Returning to Sender: In Transit", "Exception"⟩,
  ⟨37, "Out for Delivery", "In Transit"⟩,
  ⟨38, "Picked Up by UPS", "In Transit"⟩,
  ⟨39, "On the Way", "In Transit"⟩,
  ⟨40, "Ready for Customer Pickup", "Processing"⟩,
  ⟨41, "Service Upgrade Requested", "In Transit"⟩,
  ⟨42, "Service Upgraded", "In Transit"⟩,
  ⟨43, "Voided Pickup", "Cancelled"⟩,
  ⟨44, "On the Way to UPS", "In Transit"⟩,
  ⟨45, "On the Way to UPS", "In Transit"⟩,
  ⟨46, "Delay", "In Transit"⟩
]

/-- Rows 41-80 of the `code_details` seed list of
`fillup_status_code_data` (`api.py`), split for elaboration speed. -/
def ups_code_details_2 : List UPSStatusCodeRow := [
  ⟨47, "On the Way", "In Transit"⟩,
  ⟨48, "Delay", "In Transit"⟩,
  ⟨49, "Delay: Action Required", "Exception"⟩,
  ⟨50, "Address Information Required", "Exception"⟩,
  ⟨51, "Delay: Emergency Situation or Severe Weather", "In Transit"⟩,
  ⟨52, "Delay: Severe Weather", "In Transit"⟩,
  ⟨53, "Delay: Severe Weather", "In Transit"⟩,
  ⟨54, "Delivery Change Requested", "In Transit"⟩,
  ⟨55, "Rescheduled Delivery", "In Transit"⟩,
  ⟨56, "Service Upgrade Requested", "In Transit"⟩,
  ⟨57, "On the Way to a Local UPS Access Point™", "In Transit"⟩,
  ⟨58, "Clearance Information Required", "Exception"⟩,
  ⟨59, "Damage Reported", "Exception"⟩,
  ⟨60, "Delivery Attempted", "In Transit"⟩,
  ⟨61, "Delivery Attempted: Adult Signature Required", "In Transit"⟩,
  ⟨62, "Delivery Attempted: Funds Required", "In Transit"⟩,
  ⟨63, "Delivery Change Completed", "In Transit"⟩,
  ⟨64, "Delivery Refused", "Exception"⟩,
  ⟨65, "Pickup Attempted", "Processing"⟩,
  ⟨66, "Post Office Delivery Attempted", "In Transit"⟩,
  ⟨67, "Returned to Sender by Post Office", "Exception"⟩,
  ⟨68, "Sent to Lost and Found", "Exception"⟩,
  ⟨69, "Unable to Deliver", "Exception"⟩,
  ⟨70, "Package not at UPS Access Point™ yet", "In Transit"⟩,
  ⟨71, "Preparing for Delivery", "In Transit"⟩,
  ⟨72, "Loaded on Delivery Vehicle", "In Transit"⟩,
  ⟨73, "In Transit to UPS Delivery Partner", "In Transit"⟩,
  ⟨74, "UPS Delivery Partner has Shipment", "In Transit"⟩,
  ⟨75, "Scheduled for Delivery", "In Transit"⟩,
  ⟨76, "UPS Delivery Partner Exception", "Exception"⟩,
  ⟨77, "Scheduled for Pickup Today", "In Transit"⟩,
  ⟨78, "Your Driver is Arriving Soon!", "In Transit"⟩,
  ⟨79, "Order Processed: In Transit to UPS", "In Transit"⟩,
  ⟨80, "Order Processed: Ready for UPS", "In Transit"⟩,
  ⟨81, "Returned - Damage Reported", "Exception"⟩,
  ⟨82, "Delivery Instructions Received", "In Transit"⟩,
  ⟨83, "Held", "In Transit"⟩,
  ⟨84, "Cleared", "In Transit"⟩,
  ⟨85, "Held for COD Payment", "In Transit"⟩,
  ⟨86, "Delay", "In Transit"⟩
]

/-- Rows 81-120 of the `code_details` seed list of
`fillup_status_code_data` (`api.py`), split for elaboration speed. -/
def ups_code_details_3 : List UPSStatusCodeRow := [
  ⟨87, "On the Way", "In Transit"⟩,
  ⟨88, "Test", "Processing"⟩,
  ⟨89, "Out for Delivery", "In Transit"⟩,
  ⟨90, "Delay", "In Transit"⟩,
  ⟨91, "Out for Delivery", "In Transit"⟩,
  ⟨92, "Customs Clearance in Progress", "In Transit"⟩,
  ⟨93, "Premier Recovery In Progress", "In Transit"⟩,
  ⟨94, "Premier Recovery Completed", "In Transit"⟩,
  ⟨95, "Additional Attempt Requested", "In Transit"⟩,
  ⟨96, "Address Change Confirmed", "In Transit"⟩,
  ⟨97, "Address Change Requested", "In Transit"⟩,
  ⟨98, "Deliver to Original Address Requested", "In Transit"⟩,
  ⟨99, "Deliver to Original Address Confirmed", "In Transit"⟩,
  ⟨100, "Hold at UPS Access Point™ Confirmed", "In Transit"⟩,
  ⟨101, "Hold at UPS Access Point™ Requested", "In Transit"⟩,
  ⟨102, "Hold for Courier Requested", "In Transit"⟩,
  ⟨103, "Hold for Courier Confirmed", "In Transit"⟩,
  ⟨104, "Hold for Instructions Confirmed", "In Transit"⟩,
  ⟨105, "Hold for Instructions Requested", "In Transit"⟩,
  ⟨106, "Hold for Pickup Confirmed", "In Transit"⟩,
  ⟨107, "Hold for Pickup Requested", "In Transit"⟩,
  ⟨108, "Hold for Pickup Today Confirmed", "In Transit"⟩,
  ⟨109, "Hold for Pickup Today Requested", "In Transit"⟩,
  ⟨110, "Refrigeration Confirmed", "In Transit"⟩,
  ⟨111, "Refrigeration Requested", "In Transit"⟩,
  ⟨112, "Re-Ice Confirmed", "In Transit"⟩,
  ⟨113, "Re-Ice Requested", "In Transit"⟩,
  ⟨114, "Request Canceled", "Cancelled"⟩,
  ⟨115, "Reschedule Delivery Confirmed", "In Transit"⟩,
  ⟨116, "Reschedule Delivery Requested", "In Transit"⟩,
  ⟨117, "Return by Saturday Confirmed", "In Transit"⟩,
  ⟨118, "Return to Sender Confirmed", "In Transit"⟩,
  ⟨119, "Return to Sender Requested", "In Transit"⟩,
  ⟨120, "Saturday Delivery Confirmed", "In Transit"⟩,
  ⟨121, "Saturday Delivery Requested", "In Transit"⟩,
  ⟨122, "Upgrade Confirmed", "In Transit"⟩,
  ⟨123, "Pending Release From Non-UPS Broker", "In Transit"⟩,
  ⟨124, "Clearance Information Needed", "Exception"⟩,
  ⟨125, "Clearance Information Needed", "Exception"⟩,
  ⟨126, "Pending Government Agency Release", "In Transit"⟩
]

/-- Rows 121-160 of the `code_details` seed list of
`fillup_status_code_data` (`api.py`), split for elaboration speed. -/
def ups_code_details_4 : List UPSStatusCodeRow := [
  ⟨127, "Investigation Closed", "Processed"⟩,
  ⟨128, "Investigation Canceled", "Processed"⟩,
  ⟨129, "Investigation Opened", "In Transit"⟩,
  ⟨130, "Claim in Progress", "Processed"⟩,
  ⟨131, "Final Pickup Attempted", "In Transit"⟩,
  ⟨132, "Airport Security Delay", "In Transit"⟩,
  ⟨133, "Return Label Left With Customer", "Processing"⟩,
  ⟨134, "Cleared Import Customs", "In Transit"⟩,
  ⟨135, "Second Pickup Attempted", "In Transit"⟩,
  ⟨136, "Delivery Rescheduled for Saturday", "In Transit"⟩,
  ⟨137, "Transferred to UPS Delivery Partner", "In Transit"⟩,
  ⟨138, "Awaiting Scheduled Departure", "In Transit"⟩,
  ⟨139, "Security Access Required", "Exception"⟩,
  ⟨140, "Claim Paid - Claim Payment Has Been Processed.", "Processed"⟩,
  ⟨141, "Incomplete Documentation Received", "Exception"⟩,
  ⟨142, "Claim Voided", "Processed"⟩,
  ⟨143, "Delivered to Agent", "In Transit"⟩,
  ⟨144, "Delivered to Post Office for Pickup", "Delivered"⟩,
  ⟨145, "Delivery Attempted", "In Transit"⟩,
  ⟨146, "Out for Delivery", "In Transit"⟩,
  ⟨147, "Seized by Law Enforcement, No Longer in UPS possession", "Cancelled"⟩,
  ⟨148, "Package Information Unavailable", "Exception"⟩,
  ⟨149, "Prohibited Contents, Package Destroyed No Longer in UPS possession", "Exception"⟩,
  ⟨153, "Updated Delivery Time", "In Transit"⟩,
  ⟨154, "Updated Delivery Date", "In Transit"⟩,
  ⟨155, "Delivery Photo", "Delivered"⟩,
  ⟨156, "Commercial Inside Release", "Delivered"⟩,
  ⟨157, "Shipment Ready for UPS", "Processing"⟩,
  ⟨158, "On the Way", "In Transit"⟩,
  ⟨159, "On the Way", "In Transit"⟩,
  ⟨160, "We Have Your Package", "In Transit"⟩,
  ⟨161, "Delivered to UPS Access Point", "In Transit"⟩,
  ⟨162, "Out for Delivery", "In Transit"⟩,
  ⟨163, "Package Information Unavailable", "Exception"⟩,
  ⟨164, "On the Way", "In Transit"⟩,
  ⟨165, "On the Way", "In Transit"⟩,
  ⟨166, "Shipment Ready for Roadie", "In Transit"⟩,
  ⟨167, "Dropped off at UPS Store by Customer", "In Transit"⟩,
  ⟨168, "Dropped off at Retail Location by Customer", "In Transit"⟩,
  ⟨169, "Dropped off at a UPS Access Point by Customer", "In Transit"⟩
]

/-- The full static `code_details` seed list of `fillup_status_code_data`
(`api.py`): the concatenation of its row chunks in source order. -/
def ups_code_details : List UPSStatusCodeRow :=
  ups_code_details_1 ++ ups_code_details_2 ++ ups_code_details_3 ++ ups_code_details_4

/-- The static `success_codes` seed list of
`fill_status_code_details_in_parcel_service_settings` (`fedex_integration.py`). -/
def fedex_success_codes : List FedExStatusCodeRow := [
  ⟨"AA", "At Airport", "In Transit"⟩,
  ⟨"AC", "At Canada Post facility", "In Transit"⟩,
  ⟨"AD", "At Delivery", "In Transit"⟩,
  ⟨"AF", "At local FedEx Facility", "In Transit"⟩,
  ⟨"AO", "Shipment arriving On-time", "In Transit"⟩,
  ⟨"AP", "At Pickup", "In Transit"⟩,
  ⟨"AR", "Arrived at FedEx location", "In Transit"⟩,
  ⟨"AX", "At USPS facility", "In Transit"⟩,
  ⟨"CA", "Shipment Cancelled", "Cancelled"⟩,
  ⟨"CH", "Location Changed", "In Transit"⟩,
  ⟨"DD", "Delivery Delay", "In Transit, Delayed"⟩,
  ⟨"DE", "Delivery Exception", "Exception"⟩,
  ⟨"DL", "Delivered", "Delivered"⟩,
  ⟨"DP", "Departed", "In Transit"⟩,
  ⟨"DR", "Vehicle furnished but not used", "In Transit"⟩,
  ⟨"DS", "Vehicle Dispatched", "In Transit"⟩,
  ⟨"DY", "Delay", "In Transit, Delayed"⟩,
  ⟨"EA", "Enroute to Airport", "In Transit"⟩,
  ⟨"ED", "Enroute to Delivery", "In Transit"⟩,
  ⟨"EO", "Enroute to Origin Airport", "In Transit"⟩,
  ⟨"EP", "Enroute to Pickup", "In Transit"⟩,
  ⟨"FD", "At FedEx Destination", "In Transit"⟩,
  ⟨"HL", "Hold at Location", "In Transit"⟩,
  ⟨"HP", "Ready for Recipient Pickup", "In Transit"⟩,
  ⟨"IT", "In Transit", "In Transit"⟩,
  ⟨"IX", "In transit (see Details)", "In Transit"⟩,
  ⟨"LO", "Left Origin", "In Transit"⟩,
  ⟨"OC", "Order Created", "Processing"⟩,
  ⟨"OD", "Out for Delivery", "In Transit"⟩,
  ⟨"OF", "At FedEx origin facility", "In Transit"⟩,
  ⟨"OX", "Shipment information sent to USPS", "Processing"⟩,
  ⟨"PD", "Pickup Delay", "Processing"⟩,
  ⟨"PF", "Plane in Flight", "In Transit"⟩,
  ⟨"PL", "Plane Landed", "In Transit"⟩,
  ⟨"PM", "In Progress", "In Transit"⟩,
  ⟨"PU", "Picked Up", "In Transit"⟩,
  ⟨"PX", "Picked up (see Details)", "In Transit"⟩,
  ⟨"RR", "CDO requested", "In Transit"⟩,
  ⟨"RM", "CDO Modified", "In Transit"⟩,
  ⟨"RC", "CDO Cancelled", "In Transit"⟩,
  ⟨"RS", "Return to Shipper", "Exception"⟩,
  ⟨"RP", "Return label link emailed to return sender", "Processing"⟩,
  ⟨"LP", "Return label link cancelled by shipment originator", "Cancelled"⟩,
  ⟨"RG", "Return label link expiring soon", "Processing"⟩,
  ⟨"RD", "Return label link expired", "Cancelled"⟩,
  ⟨"SE", "Shipment Exception", "Exception"⟩,
  ⟨"SF", "At Sort Facility", "In Transit"⟩,
  ⟨"SP", "Split Status", "Split In Transit"⟩,
  ⟨"TR", "Transfer", "In Transit"⟩,
  ⟨"CC", "Cleared Customs", "In Transit"⟩,
  ⟨"CD", "Clearance Delay", "In Transit, Delayed"⟩,
  ⟨"CP", "Clearance in Progress", "In Transit"⟩,
  ⟨"EA", "Export Approved", "In Transit"⟩,
  ⟨"SP", "Split Status", "Split In Tranist"⟩,
  ⟨"CA", "Carrier", "Carrier"⟩,
  ⟨"RC", "Recipient", "Recipient"⟩,
  ⟨"SH", "Shipper", "Shipper"⟩,
  ⟨"CU", "Customs", "Customs"⟩,
  ⟨"BR", "Broker", "Broker"⟩,
  ⟨"TP", "Transfer Partner", "Transfer Partner"⟩,
  ⟨"SP", "Split status", "Split In Transit"⟩
]

/-- The static `error_codes` seed list of
`fill_status_code_details_in_parcel_service_settings` (`fedex_integration.py`). -/
def fedex_error_codes : List FedExErrorCodeRow := [
  ⟨"CUSTOMER.REVOKE.REQUIRED", "Customer has been revoked to view invited shipments.", "Exception"⟩,
  ⟨"CUSTOMER.SIZE.INVALID", "Extraordinary sized customer.", "Exception"⟩,
  ⟨"CUSTOMER.USAGE.LOCKED", "Customer is locked out.", "Exception"⟩,
  ⟨"REFERENCETRACKING.SHIPDATERANGE.INVALID", "Please provide a valid ship date range as a part of search criteria when entering account number.", "Exception"⟩,
  ⟨"TRACKING.ACCOUNTNUMBER.EMPTY", "If not providing FedEx account number, please enter destination country/territory and postal code.", "Exception"⟩,
  ⟨"TRACKING.CUSTOMCRITICAL.ERROR", "For tracking information, please log in to customcritical.fedex.com or contact Customer Service at 1.866.274.6117.", "Service Error, See fedex.com"⟩,
  ⟨"TRACKING.DATA.NOTUNIQUE", "A unique match was not found. Please resubmit your request with a FedEx service or enter your FedEx account number.", "Exception"⟩,
  ⟨"TRACKING.DESTINATIONCOUNTRYCODE.INVALID", "Please provide a valid destination country/territory code.", "Exception"⟩,
  ⟨"TRACKING.MULTISTOP.ERROR", "For tracking information, please log in to customcritical.fedex.com or contact Customer Service at 1.866.274.6117.", "Service Error, See fedex.com"⟩,
  ⟨"TRACKING.POSTALCODE.INVALID", "Please provide a valid postal code.", "Exception"⟩,
  ⟨"TRACKING.REFERENCEDATA.INCOMPLETE", "Please enter an account number or destination country/territory and postal code.", "Exception"⟩,
  ⟨"TRACKING.REFERENCENUMBER.NOTFOUND", "Reference number cannot be found. Please correct the reference number and try again.", "Exception"⟩,
  ⟨"TRACKING.REFERENCETYPE.INVALID", "Please provide a valid reference/associated type.", "Exception"⟩,
  ⟨"TRACKING.REFERENCEVALUE.EMPTY", "Missing or invalid shipment. Please enter a valid shipment number.", "Exception"⟩,
  ⟨"TRACKING.REFRENCEVALUE.INVALID", "Invalid reference number. Please correct the request and try again.", "Exception"⟩,
  ⟨"TRACKING.SHIPDATE.ENDDATEBEFOREBEGINDATE", "Invalid ship date range. End date should not be before begin date.", "Exception"⟩,
  ⟨"TRACKING.SHIPDATEBEGIN.INVALID", "Please provide valid ship begin date.", "Exception"⟩,
  ⟨"TRACKING.SHIPDATEBEGIN.TOOOLD", "We are unable to provide tracking information. Begin date is too far in the past.", "Exception"⟩,
  ⟨"TRACKING.SHIPDATEEND.FUTURE", "Invalid ship date range. End date must not be in the future.", "Exception"⟩,
  ⟨"TRACKING.SHIPDATEEND.INVALID", "Please provide valid ship end date.", "Exception"⟩,
  ⟨"TRACKING.SHIPDATERANGE.ERROR", "Invalid date range. Please check for following conditions: 1. End date is before Begin date. 2. Begin date is beyond 2 years. 3. Begin to End date exceeds 30 days.", "Exception"⟩,
  ⟨"TRACKING.SHIPDATERANGE.INVALID", "Invalid ship date range. Please provide valid ship begin and end date.", "Exception"⟩,
  ⟨"TRACKING.SHIPDATERANGE.TOOLONG", "Ship date range is too long. Please reduce the range and try again.", "Exception"⟩,
  ⟨"TRACKING.TCN.NOTFOUND", "Transportation control number cannot be found. Please correct the transportation control number and try again.", "Exception"⟩,
  ⟨"TRACKING.TCNVALUE.EMPTY", "Please provide a valid Transportation Control Number.", "Exception"⟩,
  ⟨"TRACKING.TRACKINGNUMBER.EMPTY", "Please provide tracking number.", "Exception"⟩,
  ⟨"TRACKING.TRACKINGNUMBER.INVALID", "Invalid tracking number. Please correct the tracking number format and try again.", "Exception"⟩,
  ⟨"TRACKING.TRACKINGNUMBER.NOTFOUND", "Tracking number cannot be found. Please correct the tracking number and try again.", "Exception"⟩,
  ⟨"TRACKING.TRACKINGNUMBERS.LIMITEXCEEDED", "Please limit your inquiry to 30 tracking numbers or references.", "Exception"⟩,
  ⟨"USER.RELOGIN.REQUIRED", "We are unable to process this shipment for the moment. Try again later or contact FedEx Customer Service.", "Service Error, See fedex.com"⟩,
  ⟨"INTERNAL.SERVER.ERROR", "We encountered an unexpected error and are working to resolve the issue. We apologize for any inconvenience. Please check back at a later time.", "Service Error, See fedex.com"⟩,
  ⟨"TRACKING.MULTIPIECE.ERROR", "We are unable to provide notifications because either the package is too old or there is more than one package with the provided tracking number.", "Exception"⟩,
  ⟨"NOTIFICATION.TRACKINGNBR.NOTFOUND", "Tracking number cannot be found. Please update and try again.", "Exception"⟩,
  ⟨"TRACKING.EMAILADDRESS.INVALID", "One or more of the Email addresses you entered is invalid. Please update and try again.", "Exception"⟩,
  ⟨"TRACKING.LOCALE.INVALID", "Requested localization is invalid or not supported. Please update and try again.", "Exception"⟩,
  ⟨"TRACKING.SENDERCONTACTNAME.INVALID", "Sender contact name is missing or invalid. Please update and try again.", "Exception"⟩,
  ⟨"TRACKING.SENDEREMAILADDRESS.INVALID", "Sender email address is missing or invalid. Please update and try again.", "Exception"⟩,
  ⟨"TRACKINGDOCUMENT.DOCUMENT.UNAVAILABLE", "Signature Proof of Delivery is not currently available for this Tracking Number. Availability of signature images may take up to 5 days after delivery date. Please try later.", "Exception"⟩
]

/-- The static `success_codes` seed list of `fillup_api_responce_code_details`
(`priority_integration.py`). -/
def priority_success_codes : List PriorityResponseCodeRow := [
  ⟨"200", "Dispatched", "Processing"⟩,
  ⟨"200", "In Transit", "In Transit"⟩,
  ⟨"200", "Delivered", "Delivered"⟩,
  ⟨"200", "Canceled", "Canceled"⟩,
  ⟨"200", "Exception", "Exception"⟩
]

/-- The static `error_codes` seed list of `fillup_api_responce_code_details`
(`priority_integration.py`). -/
def priority_error_codes : List PriorityErrorCodeRow := [
  ⟨"400", "Error converting value \\\x22SALES_aORDER\\\x22 to type \x27Priority1.API.Areas.LTL.Models.V2.IdentifierType\x27. Path \x27identifierType\x27, line 2, position 34.", "Exception"⟩,
  ⟨"401", "Authorization Error: Incorrect API Key Send.", "Exception"⟩,
  ⟨"500", "No shipments found matching identifier type PurchaseOrder with value DN-5361s1", "DN Not Found"⟩
]

/-- A concrete Parcel Service Settings document whose registry child
tables hold exactly the static seed lists (the state produced by the
three fill-up functions on an empty settings document). -/
def seeded_settings : ParcelServiceSettings :=
  { ups_server_url := "https://onlinetools.ups.com"
    track_by_reference_number_url := "/api/track/v1/reference/details/"
    track_by_inquiry_number_url := "/api/track/v1/details/"
    locale := "en_US"
    ref_number_type := "FedEx Ground"
    check_no_of_days_api := 14
    ups_app_name := "jammy-erp"
    status_code_description := ups_code_details
    fedex_server_url := "https://apis.fedex.com"
    fedex_track_by_reference_number_url := "/track/v1/referencenumbers"
    fedex_track_by_tracking_id := "/track/v1/trackingnumbers"
    reference_type := some "SHIPPER_REFERENCE"
    check_for_no_of_days := 30
    include_detailed_scans_in_response := some "True"
    include_detailed_scan := some "True"
    x_locale := some "en_US"
    account_number_details := [⟨"WH-A", "ACC-123"⟩]
    tracking_code_description := fedex_success_codes
    error_code_description := fedex_error_codes
    priority_base_url := "https://api.priority1.com"
    priority_tracking_url := "/v2/ltl/shipments/history"
    shipment_identifier_type := "PurchaseOrder"
    priority_api_key := "PRIORITY-KEY"
    response_code_details := priority_success_codes
    error_code_details := priority_error_codes }

/-- A concrete Delivery Note with no tracking data yet. -/
def dn_blank : DeliveryNote :=
  { name := "DN-0001"
    posting_date := 738000
    set_warehouse := "WH-A"
    tracking_number := none
    custom_tracking := none
    custom_tracking_code := none
    custom_last_api_call := none
    custom_last_date_for_processing_status := none
    custom_incident_first_date := none
    custom_tracking_details := [] }

/-- A concrete Delivery Note that already carries a tracking number. -/
def dn_with_tracking : DeliveryNote :=
  { dn_blank with tracking_number := some "1Z999XYZ" }

/-- A concrete UPS track response: one shipment, no warnings, one
package whose current status code is `"5"`. -/
def ups_resp_code5 : UPSTrackResponse :=
  ⟨[⟨false, "", [⟨"1Z0005", ⟨"5"⟩, []⟩]⟩]⟩

/-- A concrete UPS track response whose shipment carries a `warnings`
key (the "no tracking data" marker). -/
def ups_resp_warnings : UPSTrackResponse :=
  ⟨[⟨true, "Tracking Information Not Found", []⟩]⟩

/-- A concrete UPS track response: one package whose latest activity has
status code `"3"` (seeded to the internal status "Processing"). -/
def ups_resp_code3_activity : UPSTrackResponse :=
  ⟨[⟨false, "", [⟨"1Z0003", ⟨"3"⟩, [⟨"3"⟩]⟩]⟩]⟩

/-- A concrete UPS track response: one package whose latest activity has
status code `"999"`, absent from the seeded registry. -/
def ups_resp_code999_activity : UPSTrackResponse :=
  ⟨[⟨false, "", [⟨"1Z0999", ⟨"999"⟩, [⟨"999"⟩]⟩]⟩]⟩

/-- A concrete Priority response whose first shipment reports the status
description `"Lost"`, absent from the seeded registry. -/
def priority_resp_unknown : PriorityResponse :=
  ⟨[⟨some "SHIP-1", some "Lost"⟩]⟩

/-!
## Theorems

Each claim of the review is settled below; helper lemmas shared between
claims come first.
-/

/-- The FedEx Processing-date rule is idempotent: re-applying it with
the same status and day does not change the field again. -/
theorem processing_rule_idem (st : String) (last : Option String) (t : String) :
    processing_rule st (processing_rule st last t) t = processing_rule st last t := by
  unfold processing_rule
  by_cases h : st = "Processing" <;> cases last <;> simp [h]

/-- The Priority incident-date set-if-absent update is idempotent. -/
theorem incident_update_idem (code : Int) (inc : Option String) (t : String) :
    (if code = 500 ∧ (if code = 500 ∧ inc = none then some t else inc) = none then some t
     else (if code = 500 ∧ inc = none then some t else inc)) =
    (if code = 500 ∧ inc = none then some t else inc) := by
  by_cases h : code = 500 <;> cases inc <;> simp [h]

/-- No path of the UPS writer touches
`custom_last_date_for_processing_status`. -/
theorem set_data_preserves_processing_date (settings : ParcelServiceSettings)
    (d : DeliveryNote) (result : Option UPSTrackResponse) (error : Option String)
    (m nowS : String) (d' : DeliveryNote)
    (h : set_data_in_delivery_note settings d result error m nowS = some d') :
    d'.custom_last_date_for_processing_status = d.custom_last_date_for_processing_status := by
  unfold set_data_in_delivery_note at h
  repeat' split at h
  all_goals simp_all
  all_goals (cases h; rfl)

/-- No path of the Priority writer touches
`custom_last_date_for_processing_status`. -/
theorem priority_preserves_processing_date (settings : ParcelServiceSettings)
    (d : DeliveryNote) (response : Option PriorityResponse) (error : Option PriorityError)
    (nowS todayS : String) (d' : DeliveryNote)
    (h : update_delivery_note_with_priority_details settings d response error nowS todayS
      = some d') :
    d'.custom_last_date_for_processing_status = d.custom_last_date_for_processing_status := by
  unfold update_delivery_note_with_priority_details at h
  repeat' split at h
  all_goals simp_all
  all_goals (cases h; rfl)

/-- C1 counterexample: on the Priority success path with the seeded
registry, the status description "Lost" is absent from the registry and
the status written to the shipment record is `None` — not the
carrier-provided description and not an "Unmapped" fallback — refuting
"the resulting internal status written to the shipment record is a
non-null string". -/
theorem c1_unmapped_status_counterexample :
    (update_delivery_note_with_priority_details seeded_settings dn_blank
        (some priority_resp_unknown) none "NOW" "TODAY").map
      DeliveryNote.custom_tracking = some none := by
  rfl

/-- C1 (amended): a raw status absent from the registry is handled
differently per carrier: the Priority success path writes a null status
(no description or "Unmapped" fallback); the FedEx success path falls
back to the carrier-provided human-readable description; the UPS
by-tracking-id path raises a `KeyError` (nothing is saved). -/
theorem c1_registry_fallback_amended (settings : ParcelServiceSettings)
    (dPr dFx : DeliveryNote) (sh : PriorityShipment) (shs : List PriorityShipment)
    (st sc : String) (ctn : Option String) (lsd : FedExLatestStatusDetail)
    (oer : Option FedExErrorDetail) (trs : List FedExTrackResult)
    (ctrs : List FedExCompleteTrackResult) (nowS todayS : String)
    (hsh : sh.status = some st)
    (hpr : priority_success_map settings.response_code_details st = none)
    (hfx : fedex_success_map settings.tracking_code_description sc = none) :
    (update_delivery_note_with_priority_details settings dPr (some ⟨sh :: shs⟩) none
        nowS todayS).map DeliveryNote.custom_tracking = some none ∧
    (update_delivery_note_with_fedex_details settings dFx
        (some ⟨some ⟨⟨ctn, ⟨some lsd, some sc, oer⟩ :: trs⟩ :: ctrs⟩⟩) none
        "By Reference" nowS todayS).map DeliveryNote.custom_tracking =
      some (some lsd.description) ∧
    set_data_in_delivery_note seeded_settings dn_blank (some ups_resp_code999_activity)
        none "By Tracking ID" "NOW" = none := by
  refine ⟨?_, ?_, by rfl⟩
  · simp [update_delivery_note_with_priority_details, priorityErrorTruthy, hsh, hpr]
  · simp [update_delivery_note_with_fedex_details, fedexErrorTruthy,
      fedex_status_string, hfx, pyOrS]

/-- Witness for `c1_registry_fallback_amended` at the seeded registry:
"Lost" is not a Priority status description and "ZZ" is not a FedEx
status code. -/
theorem c1_registry_fallback_witness :
    (update_delivery_note_with_priority_details seeded_settings dn_blank
        (some ⟨[⟨some "SHIP-1", some "Lost"⟩]⟩) none "NOW" "TODAY").map
      DeliveryNote.custom_tracking = some none ∧
    (update_delivery_note_with_fedex_details seeded_settings dn_blank
        (some ⟨some ⟨⟨some "7777", ⟨some ⟨"ZZ", "Weird FedEx Status"⟩, some "ZZ", none⟩
          :: []⟩ :: []⟩⟩) none "By Reference" "NOW" "TODAY").map
      DeliveryNote.custom_tracking = some (some "Weird FedEx Status") ∧
    set_data_in_delivery_note seeded_settings dn_blank (some ups_resp_code999_activity)
        none "By Tracking ID" "NOW" = none :=
  c1_registry_fallback_amended seeded_settings dn_blank dn_blank
    ⟨some "SHIP-1", some "Lost"⟩ [] "Lost" "ZZ" (some "7777")
    ⟨"ZZ", "Weird FedEx Status"⟩ none [] [] "NOW" "TODAY" (by rfl) (by rfl) (by rfl)

/-- C2 counterexample: a UPS poll normalizing to "Processing" on a note
whose Processing date is absent leaves the date absent (the rule is not
applied on the UPS path), refuting "applies uniformly regardless of
carrier". -/
theorem c2_processing_timestamp_counterexample :
    (set_data_in_delivery_note seeded_settings dn_blank (some ups_resp_code3_activity)
        none "By Tracking ID" "NOW").map
      (fun d => (d.custom_tracking, d.custom_last_date_for_processing_status)) =
      some (some "Processing", none) := by
  rfl

/-- C2 (amended): the Processing-date rule (set to today when the new
status is "Processing" and the date is absent; keep it when already set;
clear it when the status is anything else) is applied on the FedEx
success paths only; the UPS and Priority writers never touch
`custom_last_date_for_processing_status` on any path. -/
theorem c2_processing_rule_amended (settings : ParcelServiceSettings)
    (document dUps dPr : DeliveryNote) (ctn : Option String)
    (lsd : FedExLatestStatusDetail) (osc : Option String) (oer : Option FedExErrorDetail)
    (trs : List FedExTrackResult) (ctrs : List FedExCompleteTrackResult)
    (api nowS todayS : String)
    (resU : Option UPSTrackResponse) (errU : Option String) (mU : String)
    (respP : Option PriorityResponse) (errP : Option PriorityError)
    (dU' dP' : DeliveryNote)
    (hapi : api = "By Reference" ∨ api = "By Tracking ID")
    (hU : set_data_in_delivery_note settings dUps resU errU mU nowS = some dU')
    (hP : update_delivery_note_with_priority_details settings dPr respP errP nowS todayS
      = some dP') :
    (update_delivery_note_with_fedex_details settings document
        (some ⟨some ⟨⟨ctn, ⟨some lsd, osc, oer⟩ :: trs⟩ :: ctrs⟩⟩) none api
        nowS todayS).map
      (fun d => d.custom_last_date_for_processing_status) =
      some (processing_rule (fedex_status_string settings ⟨some lsd, osc, oer⟩ lsd)
        document.custom_last_date_for_processing_status todayS) ∧
    processing_rule "Processing" none todayS = some todayS ∧
    (∀ x : String, processing_rule "Processing" (some x) todayS = some x) ∧
    (∀ s : String, s ≠ "Processing" →
      processing_rule s document.custom_last_date_for_processing_status todayS = none) ∧
    dU'.custom_last_date_for_processing_status
      = dUps.custom_last_date_for_processing_status ∧
    dP'.custom_last_date_for_processing_status
      = dPr.custom_last_date_for_processing_status := by
  refine ⟨?_, by simp [processing_rule], fun x => by simp [processing_rule],
    fun s hs => by simp [processing_rule, hs],
    set_data_preserves_processing_date _ _ _ _ _ _ _ hU,
    priority_preserves_processing_date _ _ _ _ _ _ _ hP⟩
  rcases hapi with h | h <;> subst h <;>
    simp [update_delivery_note_with_fedex_details, fedexErrorTruthy]

/-- Witness for `c2_processing_rule_amended`: a FedEx by-reference poll
whose status code "OC" is seeded to "Processing", on a note with no
Processing date, sets the date to today. -/
theorem c2_processing_rule_witness :
    (update_delivery_note_with_fedex_details seeded_settings dn_blank
        (some ⟨some ⟨⟨some "7777", ⟨some ⟨"OC", "Order Created"⟩, some "OC", none⟩
          :: []⟩ :: []⟩⟩) none "By Reference" "NOW" "TODAY").map
      (fun d => d.custom_last_date_for_processing_status) = some (some "TODAY") :=
  (c2_processing_rule_amended seeded_settings dn_blank dn_blank dn_blank (some "7777")
    ⟨"OC", "Order Created"⟩ (some "OC") none [] [] "By Reference" "NOW" "TODAY"
    (some ups_resp_warnings) none "By Reference" none (some (.strErr "boom"))
    { dn_blank with custom_tracking := some "DN Not Found In UPS" }
    { dn_blank with custom_tracking := some "Exception" }
    (Or.inl rfl) (by rfl) (by rfl)).1

/-- C3: on a by-reference poll whose response contains shipment data,
the first package/result entry's tracking identifier is captured into
`tracking_number` and the first entry's current status code is the code
that gets normalized (UPS: `packages[0]`, FedEx:
`completeTrackResults[0]` / `trackResults[0]`); in particular a UPS
by-reference response whose first package has `currentStatus.code = "5"`
yields `tracking_number` from that package, status code `"5"`, status
`"In Transit"` and `custom_last_api_call = now` under the seeded
registry. -/
theorem c3_by_reference_capture (settings : ParcelServiceSettings)
    (dUps dFx : DeliveryNote) (p0 : UPSPackage) (ps : List UPSPackage)
    (msg nowS todayS : String) (new_rows : List TrackingDetailRow)
    (ctn : Option String) (lsd : FedExLatestStatusDetail) (osc : Option String)
    (oer : Option FedExErrorDetail) (trs : List FedExTrackResult)
    (ctrs : List FedExCompleteTrackResult)
    (hrows : ups_child_rows settings.status_code_description (p0 :: ps) = some new_rows) :
    set_data_in_delivery_note settings dUps (some ⟨[⟨false, msg, p0 :: ps⟩]⟩) none
        "By Reference" nowS =
      some { dUps with
        tracking_number := some p0.trackingNumber
        custom_tracking_code := some p0.currentStatus.code
        custom_tracking := some (ups_matched_status settings.status_code_description
          (cint p0.currentStatus.code))
        custom_last_api_call := some nowS
        custom_tracking_details := dUps.custom_tracking_details ++ new_rows } ∧
    update_delivery_note_with_fedex_details settings dFx
        (some ⟨some ⟨⟨ctn, ⟨some lsd, osc, oer⟩ :: trs⟩ :: ctrs⟩⟩) none
        "By Reference" nowS todayS =
      some { dFx with
        custom_last_api_call := some nowS
        tracking_number := ctn
        custom_tracking_code := some lsd.code
        custom_tracking := some (fedex_status_string settings ⟨some lsd, osc, oer⟩ lsd)
        custom_last_date_for_processing_status :=
          processing_rule (fedex_status_string settings ⟨some lsd, osc, oer⟩ lsd)
            dFx.custom_last_date_for_processing_status todayS } ∧
    (set_data_in_delivery_note seeded_settings dn_blank (some ups_resp_code5) none
        "By Reference" "NOW").map
      (fun d => (d.tracking_number, d.custom_tracking_code, d.custom_tracking,
        d.custom_last_api_call)) =
      some (some "1Z0005", some "5", some "In Transit", some "NOW") := by
  refine ⟨?_, ?_, ?_⟩
  · simp [set_data_in_delivery_note, pyTruthyStr, hrows]
  · simp [update_delivery_note_with_fedex_details, fedexErrorTruthy]
  · rfl

/-- Witness for `c3_by_reference_capture`: its hypothesis discharged at
the seeded registry and the single-package code-5 response. -/
theorem c3_by_reference_capture_witness :
    set_data_in_delivery_note seeded_settings dn_blank (some ups_resp_code5) none
        "By Reference" "NOW" =
      some { dn_blank with
        tracking_number := some "1Z0005"
        custom_tracking_code := some "5"
        custom_tracking := some (ups_matched_status seeded_settings.status_code_description
          (cint "5"))
        custom_last_api_call := some "NOW"
        custom_tracking_details := dn_blank.custom_tracking_details ++
          [⟨"1Z0005", "5", "In Transit"⟩] } :=
  (c3_by_reference_capture seeded_settings dn_blank dn_blank ⟨"1Z0005", ⟨"5"⟩, []⟩ []
    "" "NOW" "TODAY" [⟨"1Z0005", "5", "In Transit"⟩] none ⟨"XX", "x"⟩ none none [] []
    (by rfl)).1

/-- C9: a Priority poll ending in a structured transport error with HTTP
code 500 whose registered error-code entry maps to "DN Not Found" sets
the status to "DN Not Found" and sets `custom_incident_first_date` to
today exactly when it is currently absent, leaving an already-set value
unchanged. -/
theorem c9_priority_dn_not_found (settings : ParcelServiceSettings)
    (document : DeliveryNote) (content : Option String)
    (resp : Option PriorityResponse) (row : PriorityErrorCodeRow) (nowS todayS : String)
    (hrow : priority_error_map settings.error_code_details "500" = some row)
    (hjd : row.jammy_description = "DN Not Found") :
    update_delivery_note_with_priority_details settings document resp
        (some (.dictErr content 500)) nowS todayS =
      some { document with
        custom_tracking := some "DN Not Found"
        custom_incident_first_date :=
          if document.custom_incident_first_date = none then some todayS
          else document.custom_incident_first_date } := by
  have h500 : toString (500 : Int) = "500" := rfl
  simp [update_delivery_note_with_priority_details, priorityErrorTruthy, h500, hrow, hjd]

/-- Witness for `c9_priority_dn_not_found`: the seeded error registry
maps code 500 to "DN Not Found"; on a note with no incident date the
date is set to today. -/
theorem c9_priority_dn_not_found_witness :
    update_delivery_note_with_priority_details seeded_settings dn_blank none
        (some (.dictErr (some "No shipments found") 500)) "NOW" "TODAY" =
      some { dn_blank with
        custom_tracking := some "DN Not Found"
        custom_incident_first_date := some "TODAY" } :=
  c9_priority_dn_not_found seeded_settings dn_blank (some "No shipments found") none
    ⟨"500", "No shipments found matching identifier type PurchaseOrder with value DN-5361s1",
      "DN Not Found"⟩
    "NOW" "TODAY" (by rfl) (by rfl)

/-- C10: the "tracking number present" test is `== None`, not a
non-emptiness check: a shipment whose tracking number is the empty
string takes the "By Tracking ID" path and the issued request carries an
empty tracking identifier (UPS: appended to the inquiry URL; FedEx: in
the payload). -/
theorem c10_empty_tracking_id (settings : ParcelServiceSettings)
    (cached issued : Option String) (doc : DeliveryNote) (todayN : Int)
    (h : doc.tracking_number = some "") :
    (get_ups_tracking_data settings cached issued doc todayN).tracking_method
      = "By Tracking ID" ∧
    (get_ups_tracking_data settings cached issued doc todayN).url =
      settings.ups_server_url ++ settings.track_by_inquiry_number_url ++ "" ∧
    (fetch_fedex_tracking_details settings cached issued doc).api_type
      = "By Tracking ID" ∧
    (fetch_fedex_tracking_details settings cached issued doc).payload_tracking_number
      = some "" := by
  simp [get_ups_tracking_data, fetch_fedex_tracking_details, h, pyStr]

/-- Witness for `c10_empty_tracking_id` at a concrete shipment whose
tracking number is the empty string. -/
theorem c10_empty_tracking_id_witness :
    (get_ups_tracking_data seeded_settings none none
        { dn_blank with tracking_number := some "" } 738000).tracking_method
      = "By Tracking ID" ∧
    (get_ups_tracking_data seeded_settings none none
        { dn_blank with tracking_number := some "" } 738000).url =
      seeded_settings.ups_server_url ++ seeded_settings.track_by_inquiry_number_url ++ "" ∧
    (fetch_fedex_tracking_details seeded_settings none none
        { dn_blank with tracking_number := some "" }).api_type = "By Tracking ID" ∧
    (fetch_fedex_tracking_details seeded_settings none none
        { dn_blank with tracking_number := some "" }).payload_tracking_number = some "" :=
  c10_empty_tracking_id seeded_settings none none
    { dn_blank with tracking_number := some "" } 738000 (by rfl)

/-- C4 counterexample: the UPS "no shipment data found" outcome (a
`warnings` response) writes the status without stamping
`custom_last_api_call`, refuting "lastPolledAt is stamped to now on
every successful (non-transport-error) completion — including the no
shipment data found outcome — and the status and lastPolledAt fields
are always written together". -/
theorem c4_last_polled_counterexample :
    (set_data_in_delivery_note seeded_settings dn_blank (some ups_resp_warnings) none
        "By Reference" "NOW").map
      (fun d => (d.custom_tracking, d.custom_last_api_call)) =
      some (some "DN Not Found In UPS", none) := by
  rfl

/-- C4 (amended): `custom_last_api_call` is stamped to now exactly on
the shipment-data-found success paths (UPS by-reference and
by-tracking-id, FedEx by-reference and by-tracking-id, Priority
success), where it is written together with the status; every other
status-writing outcome leaves `custom_last_api_call` untouched: the UPS
transport-error and no-match (warnings) outcomes, the FedEx
parseable-transport-error and structured-carrier-error-in-2xx outcomes,
and the Priority dict-error (401 and non-401, e.g. 500) and
raw-traceback outcomes. -/
theorem c4_last_polled_amended (settings : ParcelServiceSettings) (d : DeliveryNote)
    (resU : Option UPSTrackResponse) (m err msg nowS todayS tb : String)
    (pkgs : List UPSPackage) (shs : List UPSShipment)
    (p0 : UPSPackage) (ps : List UPSPackage) (new_rows : List TrackingDetailRow)
    (ptn : String) (pcs : UPSCurrentStatus) (a0 : UPSActivity) (acts : List UPSActivity)
    (desc : String) (ctn : Option String) (ed : FedExErrorDetail) (osc : Option String)
    (lsd : FedExLatestStatusDetail) (oer : Option FedExErrorDetail)
    (trs : List FedExTrackResult) (ctrs : List FedExCompleteTrackResult)
    (api : String) (respP : Option PriorityResponse)
    (sh : PriorityShipment) (shsP : List PriorityShipment)
    (respF : Option FedExResponse) (body : String) (contentP : Option String)
    (row401 rowE : PriorityErrorCodeRow) (codeE : Int)
    (herr : err ≠ "") (htb : tb ≠ "")
    (hrows : ups_child_rows settings.status_code_description (p0 :: ps) = some new_rows)
    (hdesc : code_status_map settings.status_code_description (cint a0.statusCode)
      = some desc)
    (hbody : body ≠ "") (hcodeE : codeE ≠ 401)
    (h401 : priority_error_map settings.error_code_details "401" = some row401)
    (hrowE : priority_error_map settings.error_code_details (toString codeE)
      = some rowE) :
    set_data_in_delivery_note settings d resU (some err) m nowS =
      some { d with custom_tracking := some "ERPNext Exception" } ∧
    set_data_in_delivery_note settings d (some ⟨⟨true, msg, pkgs⟩ :: shs⟩) none m nowS =
      some { d with custom_tracking := some "DN Not Found In UPS" } ∧
    (set_data_in_delivery_note settings d (some ⟨[⟨false, msg, p0 :: ps⟩]⟩) none
        "By Reference" nowS).map
      (fun x => (x.custom_tracking, x.custom_last_api_call)) =
      some (some (ups_matched_status settings.status_code_description
        (cint p0.currentStatus.code)), some nowS) ∧
    (set_data_in_delivery_note settings d (some ⟨[⟨false, msg, ⟨ptn, pcs, a0 :: acts⟩ :: ps⟩]⟩)
        none "By Tracking ID" nowS).map
      (fun x => (x.custom_tracking, x.custom_last_api_call)) =
      some (some desc, some nowS) ∧
    update_delivery_note_with_fedex_details settings d
        (some ⟨some ⟨⟨ctn, ⟨none, osc, some ed⟩ :: trs⟩ :: ctrs⟩⟩) none api nowS todayS =
      some { d with
        custom_tracking_code := some ed.code
        custom_tracking := fedex_error_map settings.error_code_description ed.code } ∧
    (update_delivery_note_with_fedex_details settings d
        (some ⟨some ⟨⟨ctn, ⟨some lsd, osc, oer⟩ :: trs⟩ :: ctrs⟩⟩) none "By Reference"
        nowS todayS).map
      (fun x => x.custom_last_api_call) = some (some nowS) ∧
    (update_delivery_note_with_priority_details settings d (some ⟨sh :: shsP⟩) none
        nowS todayS).map
      (fun x => x.custom_last_api_call) = some (some nowS) ∧
    update_delivery_note_with_priority_details settings d respP (some (.strErr tb))
        nowS todayS =
      some { d with custom_tracking := some "Exception" } ∧
    (update_delivery_note_with_fedex_details settings d
        (some ⟨some ⟨⟨ctn, ⟨some lsd, osc, oer⟩ :: trs⟩ :: ctrs⟩⟩) none "By Tracking ID"
        nowS todayS).map
      (fun x => x.custom_last_api_call) = some (some nowS) ∧
    update_delivery_note_with_fedex_details settings d respF
        (some (.parseableJson body)) api nowS todayS =
      some { d with custom_tracking := some "Exception" } ∧
    update_delivery_note_with_priority_details settings d respP
        (some (.dictErr contentP 401)) nowS todayS =
      some { d with custom_tracking := some row401.jammy_description } ∧
    update_delivery_note_with_priority_details settings d respP
        (some (.dictErr contentP codeE)) nowS todayS =
      some { d with
        custom_tracking := some rowE.jammy_description
        custom_incident_first_date :=
          if codeE = 500 ∧ d.custom_incident_first_date = none then some todayS
          else d.custom_incident_first_date } := by
  have h401s : toString (401 : Int) = "401" := rfl
  refine ⟨?_, ?_, ?_, ?_, ?_, ?_, ?_, ?_, ?_, ?_, ?_, ?_⟩
  · simp [set_data_in_delivery_note, pyTruthyStr, herr]
  · simp [set_data_in_delivery_note, pyTruthyStr]
  · simp [set_data_in_delivery_note, pyTruthyStr, hrows]
  · simp [set_data_in_delivery_note, pyTruthyStr, hdesc]
  · simp [update_delivery_note_with_fedex_details, fedexErrorTruthy]
  · simp [update_delivery_note_with_fedex_details, fedexErrorTruthy]
  · simp [update_delivery_note_with_priority_details, priorityErrorTruthy]
  · simp [update_delivery_note_with_priority_details, priorityErrorTruthy, htb]
  · simp [update_delivery_note_with_fedex_details, fedexErrorTruthy]
  · simp [update_delivery_note_with_fedex_details, fedexErrorTruthy, hbody]
  · simp [update_delivery_note_with_priority_details, priorityErrorTruthy, h401s, h401]
  · simp [update_delivery_note_with_priority_details, priorityErrorTruthy, hcodeE, hrowE]

/-- Witness for `c4_last_polled_amended`: a concrete UPS transport error
writes the status sentinel while leaving `custom_last_api_call`
untouched. -/
theorem c4_last_polled_witness :
    set_data_in_delivery_note seeded_settings dn_blank (some ups_resp_code5)
        (some "401 Unauthorized") "By Reference" "NOW" =
      some { dn_blank with custom_tracking := some "ERPNext Exception" } :=
  (c4_last_polled_amended seeded_settings dn_blank (some ups_resp_code5)
    "By Reference" "401 Unauthorized" "" "NOW" "TODAY" "boom" [] []
    ⟨"1Z0005", ⟨"5"⟩, []⟩ [] [⟨"1Z0005", "5", "In Transit"⟩] "1Z0003" ⟨"3"⟩ ⟨"3"⟩ []
    "Processing" none ⟨"TRACKING.TRACKINGNUMBER.NOTFOUND"⟩ none ⟨"OC", "Order Created"⟩
    none [] [] "By Reference" none ⟨some "SHIP-1", some "In Transit"⟩ []
    none "not json" none
    ⟨"401", "Authorization Error: Incorrect API Key Send.", "Exception"⟩
    ⟨"500", "No shipments found matching identifier type PurchaseOrder with value DN-5361s1",
      "DN Not Found"⟩ 500
    (by decide) (by decide) (by rfl) (by rfl)
    (by decide) (by decide) (by rfl) (by rfl)).1

/-- C6 counterexample: the Priority poll has no by-tracking-id mode: for
a shipment whose tracking number is non-null, the issued request still
identifies the shipment by its reference (the Delivery Note name) —
`fetch_priority_tracking_details` never reads the tracking number —
refuting "for every carrier the lookup mode is by tracking id iff
trackingNumber is non-null" (the Priority request also carries no date
window). -/
theorem c6_lookup_mode_counterexample :
    dn_with_tracking.tracking_number = some "1Z999XYZ" ∧
    (fetch_priority_tracking_details seeded_settings (some "APIKEY")
        dn_with_tracking.name).identifierValue = dn_with_tracking.name ∧
    (fetch_priority_tracking_details seeded_settings (some "APIKEY")
        dn_with_tracking.name).identifierValue ≠ "1Z999XYZ" := by
  refine ⟨rfl, rfl, by decide⟩

/-- C6 (amended): for the UPS and FedEx carriers the lookup mode chosen
at poll start is "By Tracking ID" iff the shipment's tracking number is
non-null, and "By Reference" otherwise; by-reference requests carry a
date window and a reference-type tag from config.  (Priority always
polls by reference.) -/
theorem c6_lookup_mode_amended (settings : ParcelServiceSettings)
    (cached issued : Option String) (doc : DeliveryNote) (todayN : Int) :
    ((get_ups_tracking_data settings cached issued doc todayN).tracking_method
        = "By Tracking ID" ↔ doc.tracking_number ≠ none) ∧
    ((get_ups_tracking_data settings cached issued doc todayN).tracking_method
        = "By Reference" ↔ doc.tracking_number = none) ∧
    ((fetch_fedex_tracking_details settings cached issued doc).api_type
        = "By Tracking ID" ↔ doc.tracking_number ≠ none) ∧
    (doc.tracking_number = none →
      (get_ups_tracking_data settings cached issued doc todayN).params =
        [("locale", settings.locale),
         ("fromPickUpDate", toString (todayN - settings.check_no_of_days_api)),
         ("toPickUpDate", toString todayN),
         ("refNumType", settings.ref_number_type)] ∧
      (fetch_fedex_tracking_details settings cached issued doc).payload_ship_date_begin =
        some (doc.posting_date - 2) ∧
      (fetch_fedex_tracking_details settings cached issued doc).payload_ship_date_end =
        some (doc.posting_date + settings.check_for_no_of_days) ∧
      (fetch_fedex_tracking_details settings cached issued doc).payload_reference_type =
        some (pyOrS settings.reference_type "SHIPPER_REFERENCE")) := by
  by_cases h : doc.tracking_number = none <;>
    simp [get_ups_tracking_data, fetch_fedex_tracking_details, h]

/-- Witness for `c6_lookup_mode_amended` at a shipment with no tracking
number: the UPS lookup mode is "By Reference" and the request carries
the date-window and reference-type parameters. -/
theorem c6_lookup_mode_witness :
    ((get_ups_tracking_data seeded_settings none none dn_blank 738014).tracking_method
        = "By Tracking ID" ↔ dn_blank.tracking_number ≠ none) ∧
    ((get_ups_tracking_data seeded_settings none none dn_blank 738014).tracking_method
        = "By Reference" ↔ dn_blank.tracking_number = none) ∧
    ((fetch_fedex_tracking_details seeded_settings none none dn_blank).api_type
        = "By Tracking ID" ↔ dn_blank.tracking_number ≠ none) ∧
    (dn_blank.tracking_number = none →
      (get_ups_tracking_data seeded_settings none none dn_blank 738014).params =
        [("locale", seeded_settings.locale),
         ("fromPickUpDate", toString ((738014 : Int) - seeded_settings.check_no_of_days_api)),
         ("toPickUpDate", toString (738014 : Int)),
         ("refNumType", seeded_settings.ref_number_type)] ∧
      (fetch_fedex_tracking_details seeded_settings none none dn_blank).payload_ship_date_begin =
        some (dn_blank.posting_date - 2) ∧
      (fetch_fedex_tracking_details seeded_settings none none dn_blank).payload_ship_date_end =
        some (dn_blank.posting_date + seeded_settings.check_for_no_of_days) ∧
      (fetch_fedex_tracking_details seeded_settings none none dn_blank).payload_reference_type =
        some (pyOrS seeded_settings.reference_type "SHIPPER_REFERENCE")) :=
  c6_lookup_mode_amended seeded_settings none none dn_blank 738014

/-- C7 counterexample: a FedEx transport error whose body is not
parseable JSON makes `update_delivery_note_with_fedex_details` raise
inside `json.loads(error)` — the poll crashes and no status is written —
refuting "the normalizer does not crash". -/
theorem c7_unparseable_counterexample :
    update_delivery_note_with_fedex_details seeded_settings dn_blank none
        (some (.unparseableJson "<html>Bad Gateway</html>")) "By Reference" "NOW" "TODAY"
      = none := by
  rfl

/-- C7 (amended): on a transport error whose body cannot be parsed as a
structured carrier error, the UPS writer resolves the status to its
"ERPNext Exception" sentinel and the Priority writer (handed the raw
traceback string) to "Exception", both with no timestamp side effects
and returning immediately; the FedEx writer instead raises inside
`json.loads` and writes nothing. -/
theorem c7_error_sentinel_amended (settings : ParcelServiceSettings)
    (dU dF dP : DeliveryNote) (res : Option UPSTrackResponse) (m err raw tb : String)
    (respP : Option PriorityResponse) (api nowS todayS : String)
    (herr : err ≠ "") (hraw : raw ≠ "") (htb : tb ≠ "") :
    set_data_in_delivery_note settings dU res (some err) m nowS =
      some { dU with custom_tracking := some "ERPNext Exception" } ∧
    update_delivery_note_with_priority_details settings dP respP (some (.strErr tb))
        nowS todayS =
      some { dP with custom_tracking := some "Exception" } ∧
    update_delivery_note_with_fedex_details settings dF none (some (.unparseableJson raw))
        api nowS todayS = none := by
  refine ⟨?_, ?_, ?_⟩
  · simp [set_data_in_delivery_note, pyTruthyStr, herr]
  · simp [update_delivery_note_with_priority_details, priorityErrorTruthy, htb]
  · simp [update_delivery_note_with_fedex_details, fedexErrorTruthy, hraw]

/-- Witness for `c7_error_sentinel_amended` at concrete unparseable
bodies. -/
theorem c7_error_sentinel_witness :
    set_data_in_delivery_note seeded_settings dn_blank none
        (some "Internal Server Error") "By Reference" "NOW" =
      some { dn_blank with custom_tracking := some "ERPNext Exception" } ∧
    update_delivery_note_with_priority_details seeded_settings dn_blank none
        (some (.strErr "Traceback: most recent call last")) "NOW" "TODAY" =
      some { dn_blank with custom_tracking := some "Exception" } ∧
    update_delivery_note_with_fedex_details seeded_settings dn_blank none
        (some (.unparseableJson "Service Unavailable")) "By Reference" "NOW" "TODAY"
      = none :=
  c7_error_sentinel_amended seeded_settings dn_blank dn_blank dn_blank none
    "By Reference" "Internal Server Error" "Service Unavailable"
    "Traceback: most recent call last" none "By Reference" "NOW" "TODAY"
    (by decide) (by decide) (by decide)

/-- C8 counterexample: with a failed credential issuance (no cached
token, `get_auth_token` returned `None`), the UPS poll is not aborted:
the tracking request is still built and issued, carrying the literal
header "Bearer None"; and the resulting error response then mutates the
status — refuting "the poll is aborted ... no tracking request is
issued with a missing credential and no status field is mutated". -/
theorem c8_auth_failure_counterexample :
    ups_auth_header none none = "Bearer None" ∧
    (get_ups_tracking_data seeded_settings none none dn_blank 738014).headers_authorization
      = "Bearer None" ∧
    set_data_in_delivery_note seeded_settings dn_blank none
        (some "401 Unauthorized") "By Reference" "NOW" =
      some { dn_blank with custom_tracking := some "ERPNext Exception" } := by
  refine ⟨rfl, rfl, by rfl⟩

/-- C8 (amended): credential-issuance failure is swallowed:
`get_auth_token` catches the exception and returns `None` instead of
propagating an error, and the poll proceeds to build and issue the
tracking request with the `Authorization` header rendered as
"Bearer None" (for UPS and FedEx alike); any status mutation is then
driven by the carrier's response to that request. -/
theorem c8_auth_failure_amended (settings : ParcelServiceSettings)
    (doc : DeliveryNote) (todayN : Int) :
    ups_get_auth_token none = none ∧
    fedex_get_auth_token none = none ∧
    (get_ups_tracking_data settings none none doc todayN).headers_authorization
      = "Bearer None" ∧
    (fetch_fedex_tracking_details settings none none doc).headers_authorization
      = "Bearer None" := by
  refine ⟨rfl, rfl, ?_, ?_⟩ <;>
    by_cases h : doc.tracking_number = none <;>
      simp [get_ups_tracking_data, fetch_fedex_tracking_details, ups_auth_header,
        fedex_auth_header, ups_access_token, ups_get_auth_token, fedex_get_auth_token,
        pyTruthyStr, pyStr, h]

/-- Applying the FedEx writer to its own output with the same inputs is
a no-op. -/
theorem fedex_update_idem (settings : ParcelServiceSettings) (d : DeliveryNote)
    (resp : Option FedExResponse) (err : Option FedExErrorBody) (api nowS todayS : String)
    (d' : DeliveryNote)
    (h : update_delivery_note_with_fedex_details settings d resp err api nowS todayS
      = some d') :
    update_delivery_note_with_fedex_details settings d' resp err api nowS todayS
      = some d' := by
  unfold update_delivery_note_with_fedex_details at h ⊢
  repeat' split at h
  all_goals (try (injection h with h; subst h))
  all_goals simp_all [processing_rule_idem]

/-- Applying the Priority writer to its own output with the same inputs
is a no-op. -/
theorem priority_update_idem (settings : ParcelServiceSettings) (d : DeliveryNote)
    (resp : Option PriorityResponse) (err : Option PriorityError) (nowS todayS : String)
    (d' : DeliveryNote)
    (h : update_delivery_note_with_priority_details settings d resp err nowS todayS
      = some d') :
    update_delivery_note_with_priority_details settings d' resp err nowS todayS
      = some d' := by
  unfold update_delivery_note_with_priority_details at h ⊢
  repeat' split at h
  all_goals (try (injection h with h; subst h))
  all_goals simp_all [incident_update_idem]

/-- Applying the UPS writer to its own output with the same inputs is a
no-op on every path except "By Reference". -/
theorem set_data_idem (settings : ParcelServiceSettings) (d : DeliveryNote)
    (res : Option UPSTrackResponse) (err : Option String) (m nowS : String)
    (d' : DeliveryNote) (hm : m ≠ "By Reference")
    (h : set_data_in_delivery_note settings d res err m nowS = some d') :
    set_data_in_delivery_note settings d' res err m nowS = some d' := by
  unfold set_data_in_delivery_note at h ⊢
  repeat' split at h
  all_goals (try (injection h with h; subst h))
  all_goals simp_all

/-- C5 counterexample: applying the same UPS by-reference outcome twice
is not idempotent — the `custom_tracking_details` child table grows from
one row to two, refuting "applying the same outcome to the record twice
yields exactly the same final record state as applying it once: no
counters or collections grow". -/
theorem c5_idempotence_counterexample :
    ((set_data_in_delivery_note seeded_settings dn_blank (some ups_resp_code5) none
        "By Reference" "NOW").bind
      (fun d1 => set_data_in_delivery_note seeded_settings d1 (some ups_resp_code5) none
        "By Reference" "NOW")).map
      (fun d => d.custom_tracking_details.length) = some 2 ∧
    (set_data_in_delivery_note seeded_settings dn_blank (some ups_resp_code5) none
        "By Reference" "NOW").map
      (fun d => d.custom_tracking_details.length) = some 1 := by
  exact ⟨rfl, rfl⟩

/-- C5 (amended): applying the same poll outcome twice is idempotent on
every path — FedEx and Priority throughout, and UPS on every path other
than "By Reference" — because those paths only use last-write-wins
field assignments and set-if-absent timestamp updates; the UPS
by-reference path alone is not idempotent, appending its package rows to
the `custom_tracking_details` child table on each application. -/
theorem c5_idempotence_amended :
    (∀ (settings : ParcelServiceSettings) (d : DeliveryNote)
      (resp : Option FedExResponse) (err : Option FedExErrorBody)
      (api nowS todayS : String) (d' : DeliveryNote),
      update_delivery_note_with_fedex_details settings d resp err api nowS todayS
        = some d' →
      update_delivery_note_with_fedex_details settings d' resp err api nowS todayS
        = some d') ∧
    (∀ (settings : ParcelServiceSettings) (d : DeliveryNote)
      (resp : Option PriorityResponse) (err : Option PriorityError)
      (nowS todayS : String) (d' : DeliveryNote),
      update_delivery_note_with_priority_details settings d resp err nowS todayS
        = some d' →
      update_delivery_note_with_priority_details settings d' resp err nowS todayS
        = some d') ∧
    (∀ (settings : ParcelServiceSettings) (d : DeliveryNote)
      (res : Option UPSTrackResponse) (err : Option String) (m nowS : String)
      (d' : DeliveryNote), m ≠ "By Reference" →
      set_data_in_delivery_note settings d res err m nowS = some d' →
      set_data_in_delivery_note settings d' res err m nowS = some d') :=
  ⟨fedex_update_idem, priority_update_idem, set_data_idem⟩

/-- Witness for `c5_idempotence_amended`: re-applying a concrete UPS
by-tracking-id outcome to its own output is a no-op. -/
theorem c5_idempotence_witness :
    set_data_in_delivery_note seeded_settings
      { dn_blank with
        custom_tracking_code := some "3"
        custom_tracking := some "Processing"
        custom_last_api_call := some "NOW" }
      (some ups_resp_code3_activity) none "By Tracking ID" "NOW" =
    some { dn_blank with
      custom_tracking_code := some "3"
      custom_tracking := some "Processing"
      custom_last_api_call := some "NOW" } :=
  c5_idempotence_amended.2.2 seeded_settings dn_blank (some ups_resp_code3_activity)
    none "By Tracking ID" "NOW"
    { dn_blank with
      custom_tracking_code := some "3"
      custom_tracking := some "Processing"
      custom_last_api_call := some "NOW" }
    (by decide) (by rfl)

end UpsIntegration
